import Mathlib

/-!
Formal model of the Matiks dashboard pipeline (src/matiks1_dashboard.py).

The script loads a CSV into a pandas DataFrame, renames the column
"User ID" to "User_ID", parses the two timestamp columns with
pd.to_datetime(errors="coerce"), drops rows where either timestamp failed to
parse, and then computes, in source order: DAU/WAU/MAU tables, a monthly
revenue trend, four revenue-by-segment tables, a per-row Lifespan column,
a KMeans clustering over (Lifespan, Revenue), a signup-month cohort table,
two loyalty-band tables, and finally (after filtering to non-negative
lifespan) a churn table with percentage shares.

Modelling conventions:
* Timestamps are integers: minutes since the epoch 1970-01-01T00:00.
  `pd.Series.dt.date` is integer floor-division by 1440; pandas weekday
  (Monday = 0) of day number `d` is `(d + 3) % 7` since day 0 was a Thursday.
* `Timedelta.days` floors, so Lifespan is `Int.fdiv` of the minute
  difference by 1440.
* Revenue (a float column that may contain NaN) is `Option ℚ`; pandas
  `sum`/`mean` skip NaN, which `List.filterMap` models. Exact rationals
  stand in for IEEE floats; `Series.round(2)` is round-half-to-even at two
  decimals, modelled exactly on ℚ.
* A missing DataFrame column raises `KeyError` at its first access; the
  columns are therefore presence flags on the table, checked in the
  script's access order (Last_Login, Sign_Up, User_ID, Revenue, Tier,
  Device_Type, Game_Mode, User_Segment).
* `pd.cut` on the loyalty bins `[0, 100, 300, 500, max+1]` raises
  ValueError when the edges are not strictly increasing, i.e. whenever
  `max(Lifespan) < 500` (or the frame is empty, where the max is NaN);
  `valueErrorBadBins` models that. `KMeans.fit` raises ValueError when
  `n_samples < n_clusters`; `valueErrorTooFewSamples` models that.
* Since the whole script is one straight-line Streamlit block with no
  exception handling, any raised exception aborts the run before anything
  is rendered (the first `st.pyplot` comes after the clustering step),
  so the run is `Except PipelineError Outputs`.
* Row order inside the output tables (pandas sorts group keys, and
  rev_segment is additionally sorted by revenue) is not modelled: no
  verified claim concerns ordering, and the tables are keyed lists.
-/

namespace Matiks

/-! ## Time model -/

def minutesPerDay : Int := 1440

/-- `Series.dt.date`: the day number of a timestamp in minutes. -/
def dateOf (t : Int) : Int := Int.fdiv t minutesPerDay

/-- pandas `dt.weekday` (Monday = 0): day 0 (1970-01-01) was a Thursday. -/
def weekdayOf (t : Int) : Int := (dateOf t + 3) % 7

/-- Line 29: `df["Last_Login"] - pd.to_timedelta(weekday, unit='d')`.
Note this subtracts whole days from the raw timestamp, keeping its
time-of-day. -/
def weekKeyOf (t : Int) : Int := t - minutesPerDay * weekdayOf t

/-- The Monday on or before day number `d`. -/
def mondayOf (d : Int) : Int := d - (d + 3) % 7

/-- Year and month of a day number (civil calendar, Gregorian),
via the standard days-to-civil conversion. -/
def civilYM (z0 : Int) : Int × Int :=
  let z := z0 + 719468
  let era := Int.fdiv z 146097
  let doe := z - era * 146097
  let yoe := Int.fdiv (doe - Int.fdiv doe 1460 + Int.fdiv doe 36524 - Int.fdiv doe 146096) 365
  let y := yoe + era * 400
  let doy := doe - (365 * yoe + Int.fdiv yoe 4 - Int.fdiv yoe 100)
  let mp := Int.fdiv (5 * doy + 2) 153
  let m := mp + (if mp < 10 then 3 else -9)
  (if m ≤ 2 then y + 1 else y, m)

/-- `dt.to_period("M")`: the calendar month of a timestamp, as a single
integer key `12 * year + month`. -/
def monthKeyOf (t : Int) : Int :=
  let ym := civilYM (dateOf t)
  12 * ym.1 + ym.2

/-! ## Data model -/

/-- One raw CSV row, after the parsing pandas applies on load:
`lastLogin`/`signUp` are the results of `pd.to_datetime(errors="coerce")`
(`none` = NaT), `revenue` is `none` for NaN, and the four categorical
cells are `none` for NaN. -/
structure RawRow where
  uid : String
  lastLogin : Option Int
  signUp : Option Int
  revenue : Option ℚ
  tier : Option String
  deviceType : Option String
  gameMode : Option String
  userSegment : Option String
deriving DecidableEq, Repr

/-- The uploaded table: its rows plus which columns exist (after the
line-15 rename of "User ID" to "User_ID").  Accessing an absent column
raises `KeyError`. -/
structure RawTable where
  rows : List RawRow
  hasLastLogin : Bool
  hasSignUp : Bool
  hasUserID : Bool
  hasRevenue : Bool
  hasTier : Bool
  hasDeviceType : Bool
  hasGameMode : Bool
  hasUserSegment : Bool
deriving DecidableEq, Repr

/-- A row surviving line 22's `dropna(subset=["Last_Login", "Sign_Up"])`:
both timestamps parsed. -/
structure Row where
  uid : String
  last : Int
  sign : Int
  revenue : Option ℚ
  tier : Option String
  deviceType : Option String
  gameMode : Option String
  userSegment : Option String
deriving DecidableEq, Repr

/-- Lines 18-22: parse the timestamp columns and drop rows where either is
NaT. -/
def parseClean (l : List RawRow) : List Row :=
  l.filterMap fun r =>
    match r.lastLogin, r.signUp with
    | some a, some s =>
        some ⟨r.uid, a, s, r.revenue, r.tier, r.deviceType, r.gameMode, r.userSegment⟩
    | _, _ => none

/-- Line 46: `(Last_Login - Sign_Up).dt.days` (Timedelta.days floors). -/
def lifespanOf (r : Row) : Int := Int.fdiv (r.last - r.sign) minutesPerDay

/-! ## Groupby helpers -/

/-- The distinct keys of a grouping, in first-occurrence order. -/
def keysOf [DecidableEq κ] (f : α → κ) (l : List α) : List κ := (l.map f).dedup

/-- A groupby-aggregate table: one `(key, value)` row per observed key. -/
def tableOf [DecidableEq κ] (f : α → κ) (g : κ → β) (l : List α) : List (κ × β) :=
  (keysOf f l).map fun k => (k, g k)

/-- pandas `nunique` of column `f`. -/
def nuniqueBy [DecidableEq β] (f : α → β) (l : List α) : Nat := (l.map f).dedup.length

/-- pandas `Revenue.sum()`: NaN entries are skipped, an all-NaN (or empty)
group sums to 0. -/
def sumRev (l : List Row) : ℚ := (l.filterMap Row.revenue).sum

/-- pandas `Revenue.mean()`: NaN entries are skipped and a group with no
non-NaN revenue has NaN mean, modelled as `none`. -/
def meanRev (l : List Row) : Option ℚ :=
  let v := l.filterMap Row.revenue
  if v.length = 0 then none else some (v.sum / (v.length : ℚ))

/-- Association-list lookup by key (leftmost match). -/
def lookupKey [DecidableEq κ] (k : κ) : List (κ × β) → Option β
  | [] => none
  | p :: ps => if p.1 = k then some p.2 else lookupKey k ps

/-! ## Activity aggregator (lines 24-37) -/

/-- Line 25: distinct `User_ID` count among rows whose `Last_Login` date is
`d`. -/
def dauAt (rows : List Row) (d : Int) : Nat :=
  nuniqueBy Row.uid (rows.filter fun r => decide (dateOf r.last = d))

def dauTable (rows : List Row) : List (Int × Nat) :=
  tableOf (fun r => dateOf r.last) (dauAt rows) rows

/-- Lines 29-30: distinct `User_ID` count in a week bucket. -/
def wauAt (rows : List Row) (w : Int) : Nat :=
  nuniqueBy Row.uid (rows.filter fun r => decide (weekKeyOf r.last = w))

def wauTable (rows : List Row) : List (Int × Nat) :=
  tableOf (fun r => weekKeyOf r.last) (wauAt rows) rows

/-- Lines 33-34: distinct `User_ID` count in a month bucket. -/
def mauAt (rows : List Row) (m : Int) : Nat :=
  nuniqueBy Row.uid (rows.filter fun r => decide (monthKeyOf r.last = m))

def mauTable (rows : List Row) : List (Int × Nat) :=
  tableOf (fun r => monthKeyOf r.last) (mauAt rows) rows

/-- Line 37: monthly revenue sum. -/
def revenueTrendAt (rows : List Row) (m : Int) : ℚ :=
  sumRev (rows.filter fun r => decide (monthKeyOf r.last = m))

def revenueTrendTable (rows : List Row) : List (Int × ℚ) :=
  tableOf (fun r => monthKeyOf r.last) (revenueTrendAt rows) rows

/-! ## Segment tables (lines 40-43): groupby on a categorical column
(pandas drops NaN group keys), value = revenue sum. -/

def segTable (f : Row → Option String) (rows : List Row) : List (String × ℚ) :=
  (rows.filterMap f).dedup.map fun k =>
    (k, sumRev (rows.filter fun r => decide (f r = some k)))

/-! ## Error taxonomy -/

/-- The exceptions the script can actually raise: a pandas `KeyError` for a
missing column, sklearn's ValueError for `n_samples < n_clusters`, and the
pandas ValueError from `pd.cut` when the loyalty bin edges are not strictly
increasing. -/
inductive PipelineError
  | keyError (column : String)
  | valueErrorTooFewSamples (nSamples nClusters : Nat)
  | valueErrorBadBins
deriving DecidableEq, Repr

/-! ## Clustering (lines 48-51) -/

/-- Line 49: `df[["Lifespan", "Revenue"]].dropna()`.  Lifespan is never NaN
after line 22, so only NaN revenue drops a row. -/
def validPairs (rows : List Row) : List (Int × ℚ) :=
  rows.filterMap fun r => r.revenue.map fun q => (lifespanOf r, q)

def sqDist (p c : ℚ × ℚ) : ℚ := (p.1 - c.1) ^ 2 + (p.2 - c.2) ^ 2

def nearestIdxAux (p : ℚ × ℚ) : List (ℚ × ℚ) → Nat → Nat × ℚ → Nat
  | [], _, best => best.1
  | c :: cs, i, best =>
      if sqDist p c < best.2 then nearestIdxAux p cs (i + 1) (i, sqDist p c)
      else nearestIdxAux p cs (i + 1) best

/-- A deterministic centroid assignment: label each point by its nearest
centroid among the first four points.  sklearn's seeded k-means++ and Lloyd
iterations are summarised by this deterministic function; with
`random_state=42` fixed in the source, the labels are a pure function of
the input, which is the only property of the assignment any claim uses. -/
def kmeansAssign (pts : List (Int × ℚ)) : List Nat :=
  let q : List (ℚ × ℚ) := pts.map fun p => ((p.1 : ℚ), p.2)
  match q with
  | [] => []
  | c0 :: _ =>
      let cs := q.take 4
      q.map fun p => nearestIdxAux p cs 0 (0, sqDist p c0)

/-- Line 50: `KMeans(n_clusters=4, random_state=42).fit(clustering_data)`.
sklearn raises ValueError when the sample count is below `n_clusters`;
otherwise it deterministically labels every sample. -/
def kmeansLabels (k : Nat) (pts : List (Int × ℚ)) : Except PipelineError (List Nat) :=
  if pts.length < k then Except.error (PipelineError.valueErrorTooFewSamples pts.length k)
  else Except.ok (kmeansAssign pts)

/-! ## Cohort table (lines 110-114) -/

def cohortTable (rows : List Row) : List (Int × Nat × Option ℚ) :=
  tableOf (fun r => monthKeyOf r.sign)
    (fun m =>
      let g := rows.filter fun r => decide (monthKeyOf r.sign = m)
      (g.length, meanRev g))
    rows

/-! ## Loyalty bands (lines 146-165) -/

inductive LoyaltyBand
  | lt100
  | b100to300
  | b300to500
  | b500plus
deriving DecidableEq, Repr

def loyaltyLabels : List LoyaltyBand :=
  [LoyaltyBand.lt100, LoyaltyBand.b100to300, LoyaltyBand.b300to500, LoyaltyBand.b500plus]

/-- Line 147's bin-edge list `[0, 100, 300, 500, df["Lifespan"].max() + 1]`. -/
def loyaltyBins (M : Int) : List Int := [0, 100, 300, 500, M + 1]

def loyaltyLo (M : Int) (i : Fin 4) : Int := (loyaltyBins M).get i.castSucc

def loyaltyHi (M : Int) (i : Fin 4) : Int := (loyaltyBins M).get i.succ

/-- Membership of a lifespan in the `i`-th loyalty interval: `pd.cut` with
`right=False` makes every interval left-closed and right-open. -/
def inLoyaltyBand (M l : Int) (i : Fin 4) : Prop :=
  loyaltyLo M i ≤ l ∧ l < loyaltyHi M i

instance (M l : Int) (i : Fin 4) : Decidable (inLoyaltyBand M l i) := by
  unfold inLoyaltyBand
  infer_instance

/-- Line 149: the `pd.cut` label of a lifespan (`none` when the value falls
in no bin, as for negative lifespans). -/
def loyaltyBandOf (M l : Int) : Option LoyaltyBand :=
  if 0 ≤ l ∧ l < 100 then some LoyaltyBand.lt100
  else if 100 ≤ l ∧ l < 300 then some LoyaltyBand.b100to300
  else if 300 ≤ l ∧ l < 500 then some LoyaltyBand.b300to500
  else if 500 ≤ l ∧ l < M + 1 then some LoyaltyBand.b500plus
  else none

/-- `df["Lifespan"].max()` over the cleaned frame (`none` when empty, the
NaN max of pandas). -/
def maxLifespan (rows : List Row) : Option Int := (rows.map lifespanOf).maximum

/-- Lines 147-159: build the two loyalty tables (mean and total revenue per
band; groupby on a categorical lists all four bands).  `pd.cut` raises
ValueError whenever the edge list is not strictly increasing, i.e. whenever
`max(Lifespan) + 1 ≤ 500`, and also on the NaN edge from an empty frame. -/
def loyaltyStage (rows : List Row) :
    Except PipelineError (List (LoyaltyBand × Option ℚ) × List (LoyaltyBand × ℚ)) :=
  match maxLifespan rows with
  | none => Except.error PipelineError.valueErrorBadBins
  | some M =>
      if M < 500 then Except.error PipelineError.valueErrorBadBins
      else
        Except.ok
          (loyaltyLabels.map fun b =>
            (b, meanRev (rows.filter fun r => decide (loyaltyBandOf M (lifespanOf r) = some b))),
           loyaltyLabels.map fun b =>
            (b, sumRev (rows.filter fun r => decide (loyaltyBandOf M (lifespanOf r) = some b))))

/-! ## Churn table (lines 167-182) -/

inductive ChurnBand
  | sameDay
  | le7Days
  | le30Days
deriving DecidableEq, Repr

def churnLabels : List ChurnBand := [ChurnBand.sameDay, ChurnBand.le7Days, ChurnBand.le30Days]

/-- Line 170: `pd.cut(Lifespan, bins=[-1, 0, 7, 30])` with the default
`right=True`: intervals `(-1, 0]`, `(0, 7]`, `(7, 30]`; anything else is
unlabelled. -/
def churnBandOf (l : Int) : Option ChurnBand :=
  if -1 < l ∧ l ≤ 0 then some ChurnBand.sameDay
  else if 0 < l ∧ l ≤ 7 then some ChurnBand.le7Days
  else if 7 < l ∧ l ≤ 30 then some ChurnBand.le30Days
  else none

/-- Line 168: `df = df[df["Lifespan"] >= 0]` — the only place the script
filters on lifespan. -/
def churnBase (rows : List Row) : List Row :=
  rows.filter fun r => decide (0 ≤ lifespanOf r)

/-- Line 172: `df["User_ID"].nunique()` over the lifespan-filtered frame. -/
def churnTotalUsers (rows : List Row) : Nat := nuniqueBy Row.uid (churnBase rows)

/-- Line 173: `df["Revenue"].sum()` over the lifespan-filtered frame. -/
def churnTotalRevenue (rows : List Row) : ℚ := sumRev (churnBase rows)

def churnGroup (rows : List Row) (b : ChurnBand) : List Row :=
  (churnBase rows).filter fun r => decide (churnBandOf (lifespanOf r) = some b)

/-! ### Rounding: `Series.round(2)` is round-half-to-even at two decimals. -/

def roundHalfEven (q : ℚ) : Int :=
  if q - (⌊q⌋ : ℚ) < 1 / 2 then ⌊q⌋
  else if 1 / 2 < q - (⌊q⌋ : ℚ) then ⌊q⌋ + 1
  else if 2 ∣ ⌊q⌋ then ⌊q⌋ else ⌊q⌋ + 1

def round2 (q : ℚ) : ℚ := ((roundHalfEven (q * 100) : ℚ)) / 100

/-- Line 181: a band's record count as a percentage of the global distinct
user count, rounded to two decimals. -/
def churnUserPct (rows : List Row) (b : ChurnBand) : ℚ :=
  round2 (((churnGroup rows b).length : ℚ) / (churnTotalUsers rows : ℚ) * 100)

/-- Line 182: a band's revenue sum as a percentage of the global revenue
sum, rounded to two decimals. -/
def churnRevPct (rows : List Row) (b : ChurnBand) : ℚ :=
  round2 (sumRev (churnGroup rows b) / churnTotalRevenue rows * 100)

/-- Lines 175-182: the churn table — per band: record count, mean revenue,
total revenue, user share, revenue share. -/
def churnTable (rows : List Row) : List (ChurnBand × Nat × Option ℚ × ℚ × ℚ × ℚ) :=
  churnLabels.map fun b =>
    (b, (churnGroup rows b).length, meanRev (churnGroup rows b),
     sumRev (churnGroup rows b), churnUserPct rows b, churnRevPct rows b)

/-! ## The whole run -/

/-- The aggregate tables the script computes and renders. -/
structure Outputs where
  dau : List (Int × Nat)
  wau : List (Int × Nat)
  mau : List (Int × Nat)
  revenueTrend : List (Int × ℚ)
  revByTier : List (String × ℚ)
  revByDevice : List (String × ℚ)
  revByGameMode : List (String × ℚ)
  revByUserSegment : List (String × ℚ)
  clusterLabels : List Nat
  cohort : List (Int × Nat × Option ℚ)
  loyaltyAvg : List (LoyaltyBand × Option ℚ)
  loyaltyTotal : List (LoyaltyBand × ℚ)
  churn : List (ChurnBand × Nat × Option ℚ × ℚ × ℚ × ℚ)
deriving DecidableEq, Repr

/-- The required columns in the script's access order (lines 18, 19, 25,
37), followed by the categorical columns in theirs (lines 40-43): the
first listed absent column is the one whose access raises `KeyError`. -/
def requiredMissing (t : RawTable) : List String :=
  (if t.hasLastLogin then [] else ["Last_Login"]) ++
  (if t.hasSignUp then [] else ["Sign_Up"]) ++
  (if t.hasUserID then [] else ["User_ID"]) ++
  (if t.hasRevenue then [] else ["Revenue"])

def optionalMissing (t : RawTable) : List String :=
  (if t.hasTier then [] else ["Tier"]) ++
  (if t.hasDeviceType then [] else ["Device_Type"]) ++
  (if t.hasGameMode then [] else ["Game_Mode"]) ++
  (if t.hasUserSegment then [] else ["User_Segment"])

def columnCheck (t : RawTable) : Option String :=
  (requiredMissing t ++ optionalMissing t).head?

/-- The whole script body (lines 14-238) as one run.  Column accesses can
raise `KeyError`; the clustering step (line 50) can raise for too few
samples; the loyalty `pd.cut` (line 149) can raise on bad bin edges.  All
such exceptions occur before the first table or chart is emitted, so a
failed run produces no output at all. -/
def runDashboard (t : RawTable) : Except PipelineError Outputs :=
  match columnCheck t with
  | some c => Except.error (PipelineError.keyError c)
  | none =>
      let rows := parseClean t.rows
      match kmeansLabels 4 (validPairs rows) with
      | Except.error e => Except.error e
      | Except.ok labels =>
          match loyaltyStage rows with
          | Except.error e => Except.error e
          | Except.ok lt =>
              Except.ok
                { dau := dauTable rows
                  wau := wauTable rows
                  mau := mauTable rows
                  revenueTrend := revenueTrendTable rows
                  revByTier := segTable Row.tier rows
                  revByDevice := segTable Row.deviceType rows
                  revByGameMode := segTable Row.gameMode rows
                  revByUserSegment := segTable Row.userSegment rows
                  clusterLabels := labels
                  cohort := cohortTable rows
                  loyaltyAvg := lt.1
                  loyaltyTotal := lt.2
                  churn := churnTable rows }

end Matiks

namespace Matiks

/-! ## General lemmas about the groupby helpers -/

theorem lookupKey_map_keys [DecidableEq κ] (g : κ → β) (ks : List κ) (k : κ) :
    lookupKey k (ks.map fun x => (x, g x)) = if k ∈ ks then some (g k) else none := by
  induction ks with
  | nil => simp [lookupKey]
  | cons a as ih =>
      simp only [List.map_cons, lookupKey]
      by_cases h : a = k
      · subst h
        simp
      · rw [if_neg h, ih]
        by_cases hk : k ∈ as
        · rw [if_pos hk, if_pos (List.mem_cons_of_mem a hk)]
        · rw [if_neg hk, if_neg ?_]
          intro hc
          rcases List.mem_cons.mp hc with he | hm
          · exact h he.symm
          · exact hk hm

theorem nuniqueBy_eq_card [DecidableEq β] (f : α → β) (l : List α) :
    nuniqueBy f l = (l.map f).toFinset.card := by
  rw [nuniqueBy, List.card_toFinset]

theorem dauAt_eq_card (rows : List Row) (d : Int) :
    dauAt rows d =
      ((rows.filter fun r => decide (dateOf r.last = d)).map Row.uid).toFinset.card := by
  rw [dauAt, nuniqueBy_eq_card]

theorem wauAt_eq_card (rows : List Row) (w : Int) :
    wauAt rows w =
      ((rows.filter fun r => decide (weekKeyOf r.last = w)).map Row.uid).toFinset.card := by
  rw [wauAt, nuniqueBy_eq_card]

/-! ## C1: missing required columns -/

/-- C1 (amended): if any required canonical column (Last_Login, Sign_Up,
User_ID, Revenue) is absent after the header rename, the run halts with a
`KeyError` naming the first missing column in access order, and no
aggregate tables are produced.  (The script raises a pandas `KeyError`,
not a `SchemaError`, and it names only the first missing column, not the
full list.) -/
theorem missing_required_field_raises_keyError (t : RawTable)
    (h : requiredMissing t ≠ []) :
    ∃ c, (requiredMissing t).head? = some c ∧
      runDashboard t = Except.error (PipelineError.keyError c) := by
  cases hc : requiredMissing t with
  | nil => exact absurd hc h
  | cons c cs =>
      refine ⟨c, rfl, ?_⟩
      unfold runDashboard columnCheck
      rw [hc]
      rfl

def tMissingSignUpRevenue : RawTable :=
  ⟨[], true, false, true, false, true, true, true, true⟩

/-- C1 counterexample: with both Sign_Up and Revenue absent, the run fails
with an error naming only Sign_Up — not a `SchemaError` naming all of the
missing fields. -/
theorem missing_required_field_counterexample :
    runDashboard tMissingSignUpRevenue = Except.error (PipelineError.keyError "Sign_Up") ∧
    requiredMissing tMissingSignUpRevenue = ["Sign_Up", "Revenue"] ∧
    PipelineError.keyError "Sign_Up" ≠ PipelineError.keyError "Revenue" :=
  ⟨rfl, rfl, by decide⟩

def tMissingLastLogin : RawTable :=
  ⟨[], false, true, true, true, true, true, true, true⟩

/-- C1 witness: a table missing only Last_Login halts with that KeyError. -/
theorem missing_required_field_witness :
    ∃ c, (requiredMissing tMissingLastLogin).head? = some c ∧
      runDashboard tMissingLastLogin = Except.error (PipelineError.keyError c) :=
  missing_required_field_raises_keyError tMissingLastLogin (by decide)

/-! ## C10: missing optional categorical columns -/

/-- C10 (amended): if a categorical column (Tier, Device_Type, Game_Mode,
User_Segment) is absent, the run is NOT continued with that table omitted:
the groupby on the absent column raises `KeyError` and the whole run halts
with no outputs at all. -/
theorem missing_optional_column_halts (t : RawTable)
    (hreq : requiredMissing t = []) (hopt : optionalMissing t ≠ []) :
    ∃ c, (optionalMissing t).head? = some c ∧
      runDashboard t = Except.error (PipelineError.keyError c) := by
  cases hc : optionalMissing t with
  | nil => exact absurd hc hopt
  | cons c cs =>
      refine ⟨c, rfl, ?_⟩
      unfold runDashboard columnCheck
      rw [hreq, hc]
      rfl

def tMissingTier : RawTable :=
  ⟨[⟨"A", some 0, some 0, some 5, none, some "ios", some "solo", some "casual"⟩],
   true, true, true, true, false, true, true, true⟩

/-- C10 counterexample: all required columns present but Tier absent — the
run errors instead of omitting the Tier table, and none of the remaining
outputs are produced. -/
theorem missing_optional_column_counterexample :
    runDashboard tMissingTier = Except.error (PipelineError.keyError "Tier") := rfl

def tMissingDevice : RawTable :=
  ⟨[], true, true, true, true, true, false, true, true⟩

/-- C10 witness: a table missing only Device_Type halts with that KeyError. -/
theorem missing_optional_column_witness :
    ∃ c, (optionalMissing tMissingDevice).head? = some c ∧
      runDashboard tMissingDevice = Except.error (PipelineError.keyError c) :=
  missing_optional_column_halts tMissingDevice (by decide) (by decide)

/-! ## C9: determinism -/

/-- C9: the run is a pure function of the uploaded table — two runs on
identical input (the configuration constants and the clustering seed
`random_state=42` are fixed in the source) produce identical aggregate
tables and identical cluster labels. -/
theorem pipeline_deterministic (t₁ t₂ : RawTable) (h : t₁ = t₂) :
    runDashboard t₁ = runDashboard t₂ :=
  congrArg runDashboard h

def tDeterminism : RawTable :=
  ⟨[⟨"A", some 0, some 720, none, none, none, none, none⟩],
   true, true, true, true, true, true, true, true⟩

/-- C9 witness: re-running on a concrete table gives the same result. -/
theorem pipeline_deterministic_witness :
    runDashboard tDeterminism = runDashboard tDeterminism :=
  pipeline_deterministic tDeterminism tDeterminism rfl

end Matiks

namespace Matiks

/-! ## C2: where the negative-lifespan filter actually applies -/

def rNegLifespan : Row := ⟨"B", 1440 * 5, 1440 * 9, some 7, none, none, none, none⟩

/-- C2 counterexample: a record whose signup is after its last activity
(lifespan −4) is still counted by DAU and still contributes its revenue to
the monthly revenue trend — it is not excluded from all aggregates. -/
theorem negative_lifespan_counted_counterexample :
    lifespanOf rNegLifespan = -4 ∧
    dauAt [rNegLifespan] 5 = 1 ∧
    revenueTrendAt [rNegLifespan] (monthKeyOf rNegLifespan.last) = 7 := by
  refine ⟨rfl, rfl, ?_⟩
  norm_num [revenueTrendAt, sumRev, rNegLifespan, List.filter, List.filterMap_cons, List.filterMap_nil]

/-- C2 (amended): the `Lifespan >= 0` filter is applied only on line 168,
directly before the churn table — a record enters the churn table's base
population exactly when it survived timestamp cleaning and has non-negative
lifespan; every earlier aggregate (DAU/WAU/MAU, revenue trend, segments,
cohort, clustering, loyalty) is computed on the unfiltered cleaned rows. -/
theorem lifespan_filter_only_for_churn (rows : List Row) (r : Row) :
    r ∈ churnBase rows ↔ r ∈ rows ∧ 0 ≤ lifespanOf r := by
  simp [churnBase, List.mem_filter]

/-! ## C3: how revenue aggregates treat missing and negative revenue -/

/-- From the spec's words (§4.2): "any aggregate keyed on revenue must use
only records where revenue is present and non-negative".  The
spec-compliant monthly revenue sum, for comparison with `revenueTrendAt`. -/
def revenueTrendSpec (rows : List Row) (m : Int) : ℚ :=
  (((rows.filter fun r => decide (monthKeyOf r.last = m)).filterMap Row.revenue).filter
    fun q => decide (0 ≤ q)).sum

def rNegRevenue : Row := ⟨"C", 0, 0, some (-5), none, none, none, none⟩

/-- C3 counterexample: a record with revenue −5 contributes −5 to the
monthly revenue sum, where the spec-compliant aggregate would exclude it. -/
theorem negative_revenue_summed_counterexample :
    revenueTrendAt [rNegRevenue] (monthKeyOf 0) = -5 ∧
    revenueTrendSpec [rNegRevenue] (monthKeyOf 0) = 0 ∧
    ((-5 : ℚ) ≠ 0) := by
  refine ⟨?_, ?_, by norm_num⟩ <;>
    norm_num [revenueTrendAt, revenueTrendSpec, sumRev, rNegRevenue, List.filter, List.filterMap_cons, List.filterMap_nil]

/-- C3 (amended): the revenue aggregates skip only missing (NaN) revenue;
negative revenue values are included in the sums.  Consequently the code's
monthly revenue sum agrees with the spec-compliant one exactly on data
whose present revenue values are all non-negative. -/
theorem revenue_trend_skips_only_missing (rows : List Row) (m : Int)
    (h : ∀ r ∈ rows, ∀ q, r.revenue = some q → 0 ≤ q) :
    revenueTrendAt rows m = revenueTrendSpec rows m := by
  unfold revenueTrendAt revenueTrendSpec sumRev
  rw [eq_comm, List.filter_eq_self.mpr]
  intro q hq
  rcases List.mem_filterMap.mp hq with ⟨r, hr, hrev⟩
  exact decide_eq_true (h r (List.mem_filter.mp hr).1 q hrev)

def rPosRevenue : Row := ⟨"D", 0, 0, some 3, none, none, none, none⟩

/-- C3 witness: on a table whose revenues are present and non-negative the
two monthly sums agree. -/
theorem revenue_trend_skips_only_missing_witness :
    revenueTrendAt [rPosRevenue] (monthKeyOf 0) = revenueTrendSpec [rPosRevenue] (monthKeyOf 0) :=
  revenue_trend_skips_only_missing [rPosRevenue] (monthKeyOf 0) (by
    rintro r hr q hq
    simp only [List.mem_singleton] at hr
    subst hr
    simp only [rPosRevenue, Option.some.injEq] at hq
    subst hq
    norm_num)

/-! ## C4: what DAU actually counts -/

/-- From the spec's words (§8): DAU over the "cleaned" records, where
cleaning also excludes records with negative lifespan.  For comparison
with `dauAt`. -/
def dauSpec (rows : List Row) (d : Int) : Nat :=
  nuniqueBy Row.uid
    (((rows.filter fun r => decide (0 ≤ lifespanOf r)).filter
      fun r => decide (dateOf r.last = d)))

def rNegLifespanActive : Row := ⟨"E", 0, 1440 * 10, some 2, none, none, none, none⟩

/-- C4 counterexample: a record with negative lifespan active on day 0 is
counted by the reported DAU but not by the spec's cleaned-record count. -/
theorem dau_cleaning_counterexample :
    dauAt [rNegLifespanActive] 0 = 1 ∧
    dauSpec [rNegLifespanActive] 0 = 0 ∧
    lookupKey 0 (dauTable [rNegLifespanActive]) = some 1 :=
  ⟨rfl, rfl, rfl⟩

/-- C4 (amended): the DAU table maps each observed last-login date `d` to
the distinct-user-id count of exactly the timestamp-cleaned records (both
timestamps parsed — no lifespan condition) whose last-login date is `d`,
and has no entry for unobserved dates. -/
theorem dau_table_characterization (rows : List Row) (d : Int) :
    lookupKey d (dauTable rows) =
      if d ∈ rows.map (fun r => dateOf r.last)
      then some (nuniqueBy Row.uid (rows.filter fun r => decide (dateOf r.last = d)))
      else none := by
  unfold dauTable tableOf keysOf dauAt
  rw [lookupKey_map_keys]
  by_cases h : d ∈ rows.map fun r => dateOf r.last
  · rw [if_pos (List.mem_dedup.mpr h), if_pos h]
  · rw [if_neg (fun hc => h (List.mem_dedup.mp hc)), if_neg h]

end Matiks

namespace Matiks

/-! ## C8: too few clustering samples -/

theorem loyaltyStage_error_eq (rows : List Row) (e : PipelineError)
    (h : loyaltyStage rows = Except.error e) : e = PipelineError.valueErrorBadBins := by
  unfold loyaltyStage at h
  cases hm : maxLifespan rows with
  | none =>
      rw [hm] at h
      exact (Except.error.injEq _ _).mp h.symm
  | some M =>
      rw [hm] at h
      dsimp only at h
      by_cases h5 : M < 500
      · rw [if_pos h5] at h
        exact (Except.error.injEq _ _).mp h.symm
      · rw [if_neg h5] at h
        exact absurd h (by simp)

/-- C8 (amended): with all eight columns present, the clustering step is
the only source of a too-few-samples error; it fires exactly when fewer
than 4 valid (Lifespan, Revenue) pairs exist — a sample count, not a
distinct-point count — it is sklearn's ValueError rather than a recovered
`InsufficientDataError`, and it aborts the entire run, so no other stage's
output is returned either. -/
theorem clustering_failure_aborts_run (t : RawTable)
    (hreq : requiredMissing t = []) (hopt : optionalMissing t = []) :
    ((validPairs (parseClean t.rows)).length < 4 →
      runDashboard t = Except.error
        (PipelineError.valueErrorTooFewSamples (validPairs (parseClean t.rows)).length 4)) ∧
    (∀ n k, runDashboard t = Except.error (PipelineError.valueErrorTooFewSamples n k) →
      n = (validPairs (parseClean t.rows)).length ∧ k = 4 ∧
        (validPairs (parseClean t.rows)).length < 4) := by
  have hcc : columnCheck t = none := by
    unfold columnCheck
    rw [hreq, hopt]
    rfl
  constructor
  · intro hlen
    unfold runDashboard
    rw [hcc]
    simp only [kmeansLabels, if_pos hlen]
  · intro n k hrun
    unfold runDashboard at hrun
    rw [hcc] at hrun
    by_cases hlen : (validPairs (parseClean t.rows)).length < 4
    · simp only [kmeansLabels, if_pos hlen, Except.error.injEq] at hrun
      have h1 := (PipelineError.valueErrorTooFewSamples.injEq _ _ _ _).mp hrun
      exact ⟨h1.1.symm, h1.2.symm, hlen⟩
    · simp only [kmeansLabels, if_neg hlen] at hrun
      cases hls : loyaltyStage (parseClean t.rows) with
      | error e =>
          rw [hls] at hrun
          simp only [Except.error.injEq] at hrun
          rw [loyaltyStage_error_eq _ _ hls] at hrun
          exact absurd hrun (by simp)
      | ok p =>
          rw [hls] at hrun
          exact absurd hrun (by simp)

def tThreeSamples : RawTable :=
  ⟨[⟨"A", some 0, some 0, some 1, some "f", some "ios", some "solo", some "new"⟩,
    ⟨"B", some 1440, some 0, some 2, some "f", some "ios", some "solo", some "new"⟩,
    ⟨"C", some 2880, some 0, some 3, some "f", some "ios", some "solo", some "new"⟩],
   true, true, true, true, true, true, true, true⟩

/-- C8 counterexample: with only 3 valid (Lifespan, Revenue) pairs the
whole run fails — the error is not confined to the clustering stage, and
no other stage's tables are returned. -/
theorem clustering_failure_counterexample :
    runDashboard tThreeSamples =
      Except.error (PipelineError.valueErrorTooFewSamples 3 4) := rfl

def tTwoSamples : RawTable :=
  ⟨[⟨"A", some 0, some 0, some 1, some "f", some "ios", some "solo", some "new"⟩,
    ⟨"B", some 1440, some 0, none, some "f", some "ios", some "solo", some "new"⟩,
    ⟨"C", some 2880, some 0, some 3, some "f", some "ios", some "solo", some "new"⟩],
   true, true, true, true, true, true, true, true⟩

/-- C8 witness: a table with 2 valid pairs (one NaN revenue among 3 rows)
aborts the whole run with the too-few-samples error. -/
theorem clustering_failure_witness :
    runDashboard tTwoSamples = Except.error
      (PipelineError.valueErrorTooFewSamples (validPairs (parseClean tTwoSamples.rows)).length 4) :=
  (clustering_failure_aborts_run tTwoSamples (by decide) (by decide)).1 (by decide)

end Matiks

namespace Matiks

/-! ## C6: loyalty banding -/

theorem inLoyaltyBand_zero (M l : Int) : inLoyaltyBand M l 0 ↔ 0 ≤ l ∧ l < 100 := Iff.rfl

theorem inLoyaltyBand_one (M l : Int) : inLoyaltyBand M l 1 ↔ 100 ≤ l ∧ l < 300 := Iff.rfl

theorem inLoyaltyBand_two (M l : Int) : inLoyaltyBand M l 2 ↔ 300 ≤ l ∧ l < 500 := Iff.rfl

theorem inLoyaltyBand_three (M l : Int) : inLoyaltyBand M l 3 ↔ 500 ≤ l ∧ l < M + 1 := Iff.rfl

def rShortLifespan : Row := ⟨"F", 1440 * 10, 0, none, none, none, none, none⟩

/-- C6 counterexample: a non-empty cleaned record set whose maximum
lifespan is below 500 makes line 147's bin edges non-monotonic, so
`pd.cut` raises ValueError and no record is banded at all. -/
theorem loyalty_banding_counterexample :
    loyaltyStage [rShortLifespan] = Except.error PipelineError.valueErrorBadBins ∧
    ([rShortLifespan] : List Row) ≠ [] ∧
    0 ≤ lifespanOf rShortLifespan :=
  ⟨rfl, List.cons_ne_nil _ _, by decide⟩

/-- C6 (amended): provided the maximum lifespan is at least 500 (so that
the bin edges `[0, 100, 300, 500, max+1]` are strictly increasing), the
loyalty stage succeeds rather than raising, and every record with
non-negative lifespan falls in exactly one of the four loyalty intervals. -/
theorem loyalty_bands_partition (rows : List Row) (M : Int)
    (hM : maxLifespan rows = some M) (h500 : 500 ≤ M) :
    (∃ p, loyaltyStage rows = Except.ok p) ∧
    ∀ r ∈ rows, 0 ≤ lifespanOf r → ∃! i : Fin 4, inLoyaltyBand M (lifespanOf r) i := by
  have hok : ∃ p, loyaltyStage rows = Except.ok p := by
    unfold loyaltyStage
    rw [hM]
    dsimp only
    rw [if_neg (not_lt.mpr h500)]
    exact ⟨_, rfl⟩
  refine ⟨hok, ?_⟩
  intro r hr hl
  have hle : lifespanOf r ≤ M :=
    List.le_maximum_of_mem (List.mem_map.mpr ⟨r, hr, rfl⟩) hM
  have hj4 : ∀ j : Fin 4, j = 0 ∨ j = 1 ∨ j = 2 ∨ j = 3 := by decide
  set l := lifespanOf r with hldef
  rcases lt_or_le l 100 with h1 | h1
  · refine ⟨0, (inLoyaltyBand_zero M l).mpr ⟨hl, h1⟩, ?_⟩
    intro j hj
    rcases hj4 j with rfl | rfl | rfl | rfl
    · rfl
    · exact absurd ((inLoyaltyBand_one M l).mp hj) (by omega)
    · exact absurd ((inLoyaltyBand_two M l).mp hj) (by omega)
    · exact absurd ((inLoyaltyBand_three M l).mp hj) (by omega)
  · rcases lt_or_le l 300 with h2 | h2
    · refine ⟨1, (inLoyaltyBand_one M l).mpr ⟨h1, h2⟩, ?_⟩
      intro j hj
      rcases hj4 j with rfl | rfl | rfl | rfl
      · exact absurd ((inLoyaltyBand_zero M l).mp hj) (by omega)
      · rfl
      · exact absurd ((inLoyaltyBand_two M l).mp hj) (by omega)
      · exact absurd ((inLoyaltyBand_three M l).mp hj) (by omega)
    · rcases lt_or_le l 500 with h3 | h3
      · refine ⟨2, (inLoyaltyBand_two M l).mpr ⟨h2, h3⟩, ?_⟩
        intro j hj
        rcases hj4 j with rfl | rfl | rfl | rfl
        · exact absurd ((inLoyaltyBand_zero M l).mp hj) (by omega)
        · exact absurd ((inLoyaltyBand_one M l).mp hj) (by omega)
        · rfl
        · exact absurd ((inLoyaltyBand_three M l).mp hj) (by omega)
      · refine ⟨3, (inLoyaltyBand_three M l).mpr ⟨h3, by omega⟩, ?_⟩
        intro j hj
        rcases hj4 j with rfl | rfl | rfl | rfl
        · exact absurd ((inLoyaltyBand_zero M l).mp hj) (by omega)
        · exact absurd ((inLoyaltyBand_one M l).mp hj) (by omega)
        · exact absurd ((inLoyaltyBand_two M l).mp hj) (by omega)
        · rfl

def rLongLifespan : Row := ⟨"G", 1440 * 600, 0, none, none, none, none, none⟩

/-- C6 witness: with maximum lifespan 600 the loyalty stage succeeds and
the single record of lifespan 600 lies in exactly one loyalty band. -/
theorem loyalty_bands_partition_witness :
    (∃ p, loyaltyStage [rLongLifespan] = Except.ok p) ∧
    (∃! i : Fin 4, inLoyaltyBand 600 (lifespanOf rLongLifespan) i) :=
  ⟨(loyalty_bands_partition [rLongLifespan] 600 (by decide) (by decide)).1,
   (loyalty_bands_partition [rLongLifespan] 600 (by decide) (by decide)).2
     rLongLifespan (by simp) (by decide)⟩

end Matiks

namespace Matiks

/-! ## C7: churn percentages -/

theorem roundHalfEven_nonneg (q : ℚ) (h : 0 ≤ q) : 0 ≤ roundHalfEven q := by
  unfold roundHalfEven
  have hf : (0 : Int) ≤ ⌊q⌋ := Int.floor_nonneg.mpr h
  split_ifs <;> omega

theorem roundHalfEven_le_int (q : ℚ) (N : Int) (h : q ≤ (N : ℚ)) : roundHalfEven q ≤ N := by
  unfold roundHalfEven
  have hf : ⌊q⌋ ≤ N := by
    have h1 := Int.floor_le_floor h
    rwa [Int.floor_intCast] at h1
  have key : ¬(q - (⌊q⌋ : ℚ) < 1 / 2) → ⌊q⌋ + 1 ≤ N := by
    intro h1
    have h2 : (1 : ℚ) / 2 ≤ q - (⌊q⌋ : ℚ) := le_of_not_lt h1
    have h3 : ((⌊q⌋ : Int) : ℚ) < (N : ℚ) := by linarith
    have h4 : ⌊q⌋ < N := by exact_mod_cast h3
    omega
  split_ifs with h1 h2 h3
  · exact hf
  · exact key h1
  · exact hf
  · exact key h1

theorem round2_nonneg (q : ℚ) (h : 0 ≤ q) : 0 ≤ round2 q := by
  unfold round2
  have h1 : (0 : Int) ≤ roundHalfEven (q * 100) := roundHalfEven_nonneg _ (by positivity)
  have h2 : (0 : ℚ) ≤ (roundHalfEven (q * 100) : ℚ) := by exact_mod_cast h1
  positivity

theorem round2_le_hundred (q : ℚ) (h : q ≤ 100) : round2 q ≤ 100 := by
  unfold round2
  have h1 : q * 100 ≤ ((10000 : Int) : ℚ) := by push_cast; linarith
  have h2 : roundHalfEven (q * 100) ≤ 10000 := roundHalfEven_le_int _ _ h1
  have h3 : ((roundHalfEven (q * 100)) : ℚ) ≤ 10000 := by exact_mod_cast h2
  linarith

def rowDupA : Row := ⟨"A", 0, 0, some 1, none, none, none, none⟩

/-- C7 counterexample: two records with the same user id, both Same-Day —
the band's record count (2) is divided by the global distinct-user count
(1), giving a user-percentage of 200, outside [0, 100]. -/
theorem churn_user_pct_counterexample :
    churnUserPct [rowDupA, rowDupA] ChurnBand.sameDay = 200 ∧
    ¬ churnUserPct [rowDupA, rowDupA] ChurnBand.sameDay ≤ 100 := by
  have h : churnUserPct [rowDupA, rowDupA] ChurnBand.sameDay = 200 := by
    norm_num [churnUserPct, churnGroup, churnBase, churnTotalUsers, nuniqueBy, lifespanOf,
      rowDupA, churnBandOf, round2, roundHalfEven, minutesPerDay, List.filter]
  refine ⟨h, ?_⟩
  rw [h]
  norm_num

/-- C7 (amended): the churn shares are computed against the global totals
of the lifespan-filtered cleaned dataset and rounded to two decimals; they
lie in [0, 100] provided the cleaned records have pairwise-distinct user
ids (so that a band's record count cannot exceed the global distinct-user
count), every present revenue is non-negative, and the global revenue
total is positive.  (They need not sum to 100 across the three bands.) -/
theorem churn_pct_bounds (rows : List Row)
    (hnd : ((churnBase rows).map Row.uid).Nodup)
    (hne : churnBase rows ≠ [])
    (hrev : ∀ r ∈ churnBase rows, ∀ q, r.revenue = some q → 0 ≤ q)
    (hpos : 0 < churnTotalRevenue rows) (b : ChurnBand) :
    0 ≤ churnUserPct rows b ∧ churnUserPct rows b ≤ 100 ∧
    0 ≤ churnRevPct rows b ∧ churnRevPct rows b ≤ 100 := by
  have hT : churnTotalUsers rows = (churnBase rows).length := by
    unfold churnTotalUsers nuniqueBy
    rw [List.Nodup.dedup hnd, List.length_map]
  have hTpos : 0 < (churnBase rows).length := List.length_pos.mpr hne
  have hTQ : (0 : ℚ) < (churnTotalUsers rows : ℚ) := by
    rw [hT]
    exact_mod_cast hTpos
  have hglen : (churnGroup rows b).length ≤ churnTotalUsers rows := by
    rw [hT]
    exact List.length_filter_le _ _
  have huser : 0 ≤ churnUserPct rows b ∧ churnUserPct rows b ≤ 100 := by
    unfold churnUserPct
    constructor
    · exact round2_nonneg _ (by positivity)
    · apply round2_le_hundred
      have hdiv : ((churnGroup rows b).length : ℚ) / (churnTotalUsers rows : ℚ) ≤ 1 :=
        (div_le_one hTQ).mpr (by exact_mod_cast hglen)
      nlinarith
  have hsub : List.Sublist ((churnGroup rows b).filterMap Row.revenue)
      ((churnBase rows).filterMap Row.revenue) :=
    List.Sublist.filterMap Row.revenue (List.filter_sublist _)
  have hnn : ∀ a ∈ (churnBase rows).filterMap Row.revenue, (0 : ℚ) ≤ a := by
    intro a ha
    rcases List.mem_filterMap.mp ha with ⟨r, hr, hra⟩
    exact hrev r hr a hra
  have hle : sumRev (churnGroup rows b) ≤ churnTotalRevenue rows :=
    List.Sublist.sum_le_sum hsub hnn
  have hge : (0 : ℚ) ≤ sumRev (churnGroup rows b) :=
    List.sum_nonneg fun a ha => hnn a (hsub.subset ha)
  have hrevb : 0 ≤ churnRevPct rows b ∧ churnRevPct rows b ≤ 100 := by
    unfold churnRevPct
    constructor
    · exact round2_nonneg _ (by positivity)
    · apply round2_le_hundred
      have hdiv : sumRev (churnGroup rows b) / churnTotalRevenue rows ≤ 1 :=
        (div_le_one hpos).mpr hle
      nlinarith
  exact ⟨huser.1, huser.2, hrevb.1, hrevb.2⟩

def rowSameDayTen : Row := ⟨"A", 0, 0, some 10, none, none, none, none⟩

def rowLateForty : Row := ⟨"B", 1440 * 40, 0, some 30, none, none, none, none⟩

/-- C7 witness: two distinct users (one Same-Day, one with lifespan 40 and
therefore outside every churn band) give Same-Day shares inside [0, 100]. -/
theorem churn_pct_bounds_witness :
    0 ≤ churnUserPct [rowSameDayTen, rowLateForty] ChurnBand.sameDay ∧
    churnUserPct [rowSameDayTen, rowLateForty] ChurnBand.sameDay ≤ 100 ∧
    0 ≤ churnRevPct [rowSameDayTen, rowLateForty] ChurnBand.sameDay ∧
    churnRevPct [rowSameDayTen, rowLateForty] ChurnBand.sameDay ≤ 100 :=
  churn_pct_bounds [rowSameDayTen, rowLateForty]
    (by decide)
    (by simp [churnBase, lifespanOf, rowSameDayTen, rowLateForty, minutesPerDay])
    (by
      rintro r hr q hq
      simp only [churnBase, List.mem_filter, List.mem_cons, List.mem_singleton] at hr
      rcases hr.1 with rfl | rfl | h
      · simp only [rowSameDayTen, Option.some.injEq] at hq
        subst hq
        norm_num
      · simp only [rowLateForty, Option.some.injEq] at hq
        subst hq
        norm_num
      · exact absurd h (List.not_mem_nil r))
    (by norm_num [churnTotalRevenue, sumRev, churnBase, lifespanOf, rowSameDayTen, rowLateForty,
      minutesPerDay, Int.fdiv, List.filter, List.filterMap_cons, List.filterMap_nil])
    ChurnBand.sameDay

end Matiks

namespace Matiks

/-! ## C5: weekly buckets -/

/-- The set of last-login dates observed inside one week bucket. -/
def weekDates (rows : List Row) (w : Int) : Finset Int :=
  ((rows.filter fun r => decide (weekKeyOf r.last = w)).map fun r => dateOf r.last).toFinset

def rowMonTen : Row := ⟨"A", 19723 * 1440 + 600, 0, none, none, none, none, none⟩

def rowMonEleven : Row := ⟨"B", 19723 * 1440 + 660, 0, none, none, none, none, none⟩

/-- C5 counterexample: two users log in on the same Monday (2024-01-01,
day 19723) at 10:00 and 11:00.  The week key keeps the time-of-day, so it
is not the Monday bucket `1440 * 19723`, the two records land in two
different "week" buckets, and the bucket containing the first record has
WAU 1 < 2 = DAU of that very Monday. -/
theorem wau_bucket_counterexample :
    dauAt [rowMonTen, rowMonEleven] 19723 = 2 ∧
    wauAt [rowMonTen, rowMonEleven] (weekKeyOf rowMonTen.last) = 1 ∧
    mondayOf (dateOf rowMonTen.last) = 19723 ∧
    mondayOf (dateOf rowMonEleven.last) = 19723 ∧
    weekKeyOf rowMonTen.last ≠ minutesPerDay * mondayOf (dateOf rowMonTen.last) ∧
    ¬ dauAt [rowMonTen, rowMonEleven] 19723 ≤
        wauAt [rowMonTen, rowMonEleven] (weekKeyOf rowMonTen.last) := by
  decide

/-- C5 (amended): when every last-login timestamp is midnight-aligned
(pure dates), each record's week key is exactly `1440 *` the Monday on or
before its last-login date; then, within one calendar week, WAU is at
least the DAU of each of its days, and in general WAU never exceeds the
sum of the DAU values of the dates observed in its bucket. -/
theorem wau_bucket_amended (rows : List Row)
    (hmid : ∀ r ∈ rows, r.last % minutesPerDay = 0) :
    (∀ r ∈ rows, weekKeyOf r.last = minutesPerDay * mondayOf (dateOf r.last)) ∧
    (∀ r ∈ rows, ∀ s ∈ rows, mondayOf (dateOf s.last) = mondayOf (dateOf r.last) →
      dauAt rows (dateOf s.last) ≤ wauAt rows (weekKeyOf r.last)) ∧
    (∀ r ∈ rows, wauAt rows (weekKeyOf r.last) ≤
      ∑ d ∈ weekDates rows (weekKeyOf r.last), dauAt rows d) := by
  have ha : ∀ r ∈ rows, weekKeyOf r.last = minutesPerDay * mondayOf (dateOf r.last) := by
    intro r hr
    obtain ⟨d, hd⟩ := Int.dvd_of_emod_eq_zero (hmid r hr)
    rw [hd]
    unfold weekKeyOf weekdayOf dateOf mondayOf minutesPerDay
    rw [Int.mul_fdiv_cancel_left d (by norm_num)]
    ring
  refine ⟨ha, ?_, ?_⟩
  · intro r hr s hs hmon
    rw [dauAt_eq_card, wauAt_eq_card]
    apply Finset.card_le_card
    intro u hu
    simp only [List.mem_toFinset, List.mem_map] at hu ⊢
    obtain ⟨a, haf, hau⟩ := hu
    have hmem := List.mem_filter.mp haf
    refine ⟨a, List.mem_filter.mpr ⟨hmem.1, ?_⟩, hau⟩
    have hda : dateOf a.last = dateOf s.last := of_decide_eq_true hmem.2
    rw [decide_eq_true_eq, ha a hmem.1, ha r hr, hda, hmon]
  · intro r hr
    rw [wauAt_eq_card]
    have hsub : ((rows.filter fun x => decide (weekKeyOf x.last = weekKeyOf r.last)).map
        Row.uid).toFinset ⊆
        (weekDates rows (weekKeyOf r.last)).biUnion
          (fun d => ((rows.filter fun x => decide (dateOf x.last = d)).map Row.uid).toFinset) := by
      intro u hu
      simp only [List.mem_toFinset, List.mem_map] at hu
      obtain ⟨a, haf, hau⟩ := hu
      have hmema := List.mem_filter.mp haf
      apply Finset.mem_biUnion.mpr
      refine ⟨dateOf a.last, ?_, ?_⟩
      · unfold weekDates
        rw [List.mem_toFinset]
        exact List.mem_map.mpr ⟨a, haf, rfl⟩
      · rw [List.mem_toFinset]
        refine List.mem_map.mpr ⟨a, List.mem_filter.mpr ⟨hmema.1, ?_⟩, hau⟩
        exact decide_eq_true rfl
    refine le_trans (Finset.card_le_card hsub) (le_trans Finset.card_biUnion_le (le_of_eq ?_))
    exact Finset.sum_congr rfl fun d _ => (dauAt_eq_card rows d).symm

def rowMonMidnight : Row := ⟨"A", 19723 * 1440, 0, none, none, none, none, none⟩

def rowTueMidnight : Row := ⟨"B", 19724 * 1440, 0, none, none, none, none, none⟩

/-- C5 witness: with date-only timestamps (Monday 2024-01-01 and Tuesday
2024-01-02), the Tuesday DAU is bounded by that week's WAU. -/
theorem wau_bucket_amended_witness :
    dauAt [rowMonMidnight, rowTueMidnight] (dateOf rowTueMidnight.last) ≤
      wauAt [rowMonMidnight, rowTueMidnight] (weekKeyOf rowMonMidnight.last) :=
  (wau_bucket_amended [rowMonMidnight, rowTueMidnight] (by decide)).2.1 rowMonMidnight
    (by simp) rowTueMidnight (by simp) (by decide)

end Matiks
